import Mathlib

/-!
Verification development for the Geographic-Data-Visualization client.

The browser-side modules are shallowly embedded: JSON documents become an
inductive `Json` value type, JavaScript truthiness and property access are
modelled explicitly, network calls and geometry-library calls become oracle
parameters, and the event-driven handlers become pure state transformers.
Floating-point arithmetic in the readable-area formatter is modelled over the
rationals; for the concrete inputs examined here the JavaScript double
computations are exact, so the two agree.
-/

namespace GeoViz

/-- JSON values as produced by `JSON.parse`. `undefined` never appears as a
value; absent object fields are modelled as `Option.none` at use sites.
Object fields are an association list looked up by first match. -/
inductive Json where
  | null : Json
  | bool (b : Bool) : Json
  | num (q : ℚ) : Json
  | str (s : String) : Json
  | arr (items : List Json) : Json
  | obj (fields : List (String × Json)) : Json

mutual

/-- Structural equality of JSON values (deriving is unavailable for this
nested inductive, so the decision procedure is written out). -/
def Json.beq : Json → Json → Bool
  | .null, .null => true
  | .bool a, .bool b => a = b
  | .num a, .num b => a = b
  | .str a, .str b => a = b
  | .arr xs, .arr ys => Json.beqList xs ys
  | .obj xs, .obj ys => Json.beqFields xs ys
  | _, _ => false
termination_by structural x => x

def Json.beqList : List Json → List Json → Bool
  | [], [] => true
  | x :: xs, y :: ys => Json.beq x y && Json.beqList xs ys
  | _, _ => false
termination_by structural x => x

def Json.beqFields : List (String × Json) → List (String × Json) → Bool
  | [], [] => true
  | (k₁, v₁) :: xs, (k₂, v₂) :: ys => k₁ = k₂ && Json.beq v₁ v₂ && Json.beqFields xs ys
  | _, _ => false
termination_by structural x => x

end

mutual

def Json.eq_of_beq : (a b : Json) → Json.beq a b = true → a = b
  | .null, .null, _ => rfl
  | .bool _, .bool _, h => by
      simp only [Json.beq, decide_eq_true_eq] at h; exact congrArg Json.bool h
  | .num _, .num _, h => by
      simp only [Json.beq, decide_eq_true_eq] at h; exact congrArg Json.num h
  | .str _, .str _, h => by
      simp only [Json.beq, decide_eq_true_eq] at h; exact congrArg Json.str h
  | .arr xs, .arr ys, h => congrArg Json.arr (Json.eqList_of_beqList xs ys h)
  | .obj xs, .obj ys, h => congrArg Json.obj (Json.eqFields_of_beqFields xs ys h)

def Json.eqList_of_beqList : (xs ys : List Json) → Json.beqList xs ys = true → xs = ys
  | [], [], _ => rfl
  | x :: xs, y :: ys, h => by
      simp only [Json.beqList, Bool.and_eq_true] at h
      exact congrArg₂ List.cons (Json.eq_of_beq x y h.1) (Json.eqList_of_beqList xs ys h.2)

def Json.eqFields_of_beqFields : (xs ys : List (String × Json)) →
    Json.beqFields xs ys = true → xs = ys
  | [], [], _ => rfl
  | (k₁, v₁) :: xs, (k₂, v₂) :: ys, h => by
      simp only [Json.beqFields, Bool.and_eq_true, decide_eq_true_eq] at h
      have hk : k₁ = k₂ := h.1.1
      have hv : v₁ = v₂ := Json.eq_of_beq v₁ v₂ h.1.2
      have ht : xs = ys := Json.eqFields_of_beqFields xs ys h.2
      rw [hk, hv, ht]

end

mutual

def Json.beq_refl : (a : Json) → Json.beq a a = true
  | .null => rfl
  | .bool b => by simp [Json.beq]
  | .num q => by simp [Json.beq]
  | .str s => by simp [Json.beq]
  | .arr xs => Json.beqList_refl xs
  | .obj xs => Json.beqFields_refl xs

def Json.beqList_refl : (xs : List Json) → Json.beqList xs xs = true
  | [] => rfl
  | x :: xs => by
      simp only [Json.beqList, Bool.and_eq_true]
      exact ⟨Json.beq_refl x, Json.beqList_refl xs⟩

def Json.beqFields_refl : (xs : List (String × Json)) → Json.beqFields xs xs = true
  | [] => rfl
  | (k, v) :: xs => by
      simp only [Json.beqFields, Bool.and_eq_true, decide_eq_true_eq]
      exact ⟨⟨trivial, Json.beq_refl v⟩, Json.beqFields_refl xs⟩

end

instance : DecidableEq Json := fun a b =>
  if h : Json.beq a b = true then isTrue (Json.eq_of_beq a b h)
  else isFalse fun he => h (he ▸ Json.beq_refl a)

/-- JavaScript truthiness of a value (arrays and objects are always truthy;
there is no NaN in the rational model). -/
def Json.truthy : Json → Bool
  | .null => false
  | .bool b => b
  | .num q => decide (q ≠ 0)
  | .str s => decide (s ≠ "")
  | .arr _ => true
  | .obj _ => true

/-- First-match association-list lookup, the model of JS object field access. -/
def lookupField : List (String × Json) → String → Option Json
  | [], _ => none
  | (k', v) :: rest, k => if k' = k then some v else lookupField rest k

/-- Property access `j.k`: a field of an object, `undefined` (here `none`)
on every non-object. -/
def getField : Json → String → Option Json
  | .obj fields, k => lookupField fields k
  | _, _ => none

/-- Truthiness of a possibly-`undefined` value. -/
def truthyOpt : Option Json → Bool
  | some j => j.truthy
  | none => false

/-- Update the first occurrence of key `k`, or append the binding. Models a
JS property assignment on an object. -/
def setFieldList (fields : List (String × Json)) (k : String) (v : Json) :
    List (String × Json) :=
  match fields with
  | [] => [(k, v)]
  | (k', v') :: rest =>
      if k' = k then (k', v) :: rest else (k', v') :: setFieldList rest k v

/-- Property assignment `j.k = v` on an object; a no-op on non-objects (a
strict-mode assignment on a primitive throws, and every such site in the
source is wrapped in an ignoring catch). -/
def setField (j : Json) (k : String) (v : Json) : Json :=
  match j with
  | .obj fields => .obj (setFieldList fields k v)
  | _ => j

/-- JS string conversion as used by `String(value)`. Only the `.str` case is
ever compared against the classifier's keyword set; the other cases are
rendered by `toString`, which differs from JS number formatting but never
collides with those keywords. -/
def jsString : Option Json → String
  | some (.str s) => s
  | some (.num q) => toString q
  | some (.bool b) => toString b
  | some .null => "null"
  | some (.arr _) => ""
  | some (.obj _) => "[object Object]"
  | none => "undefined"

/-- Whether the first character list is an initial segment of the second. -/
def charsStartWith : List Char → List Char → Bool
  | [], _ => true
  | _ :: _, [] => false
  | c :: cs, d :: ds => c = d && charsStartWith cs ds

/-- Whether the second character list occurs contiguously in the first. -/
def charsContain : List Char → List Char → Bool
  | [], needle => needle.isEmpty
  | d :: rest, needle =>
      charsStartWith needle (d :: rest) || charsContain rest needle

/-- Substring test, the model of `String.prototype.includes`. -/
def strIncludes (hay needle : String) : Bool :=
  charsContain hay.data needle.data

/-- ASCII lowercasing of one character. -/
def lowerChar (c : Char) : Char :=
  if 'A' ≤ c ∧ c ≤ 'Z' then Char.ofNat (c.toNat + 32) else c

/-- ASCII lowercasing, the model of `String.prototype.toLowerCase` (the
classifier's keyword set is pure ASCII, where the two agree). -/
def asciiToLower (s : String) : String :=
  String.mk (s.data.map lowerChar)

/-- Whether `s` ends with `suffix`, by characters. -/
def strEndsWith (s suffix : String) : Bool :=
  charsStartWith suffix.data.reverse s.data.reverse

/-! ## Feature classification (`getFeatureType`, MapContainer.vue 89-117) -/

/-- The classifier body as a function of the two fields it reads, so that
determinism in the feature is literally congruence. -/
def classifyPG (props geom : Option Json) : String :=
  let p : Json := match props with
    | some v => if v.truthy then v else .obj []
    | none => .obj []
  if truthyOpt (getField p "amenity") then
    let a := asciiToLower (jsString (getField p "amenity"))
    if a = "school" ∨ a = "university" then "education"
    else if a = "hospital" ∨ a = "clinic" ∨ a = "doctors" then "healthcare"
    else if a = "place_of_worship" then "religious"
    else "amenity"
  else if truthyOpt (getField p "building") then
    let b := asciiToLower (jsString (getField p "building"))
    if strIncludes b "resid" ∨ b = "house" ∨ b = "apartments" then "residential"
    else if strIncludes b "commer" ∨ strIncludes b "retail" ∨ strIncludes b "shop" then
      "commercial"
    else if strIncludes b "indust" then "industrial"
    else if strIncludes b "church" ∨ strIncludes b "cathedral" then "religious"
    else "building"
  else if truthyOpt (getField p "shop") ∨ truthyOpt (getField p "office") then "commercial"
  else if truthyOpt (getField p "leisure") then "leisure"
  else if truthyOpt (getField p "tourism") then "tourism"
  else if truthyOpt (getField p "landuse") then
    if getField p "landuse" = some (.str "residential") then "residential"
    else if getField p "landuse" = some (.str "industrial") then "industrial"
    else if getField p "landuse" = some (.str "commercial") then "commercial"
    else if getField p "landuse" = some (.str "forest") ∨
            getField p "landuse" = some (.str "park") then "leisure"
    else
      if truthyOpt geom ∧ getField (geom.getD .null) "type" = some (.str "Point") then "point"
      else "unknown"
  else
    if truthyOpt geom ∧ getField (geom.getD .null) "type" = some (.str "Point") then "point"
    else "unknown"

/-- `getFeatureType(feature)`: the ordered rule cascade of
MapContainer.vue, applied to a feature document. -/
def getFeatureType (feature : Json) : String :=
  classifyPG (getField feature "properties") (getField feature "geometry")

/-- The ordered first-match cascade exactly as the specification words it,
parameterized by the normalization applied to the `amenity`/`building`
values before they are compared ('identity' reads the spec literally,
`String.toLower` is the amendment the code forces). -/
def specCascade (norm : String → String) (feature : Json) : String :=
  let props := getField feature "properties"
  let geom := getField feature "geometry"
  let p : Json := match props with
    | some v => if v.truthy then v else .obj []
    | none => .obj []
  if truthyOpt (getField p "amenity") then
    let a := norm (jsString (getField p "amenity"))
    if a = "school" ∨ a = "university" then "education"
    else if a = "hospital" ∨ a = "clinic" ∨ a = "doctors" then "healthcare"
    else if a = "place_of_worship" then "religious"
    else "amenity"
  else if truthyOpt (getField p "building") then
    let b := norm (jsString (getField p "building"))
    if strIncludes b "resid" ∨ b = "house" ∨ b = "apartments" then "residential"
    else if strIncludes b "commer" ∨ strIncludes b "retail" ∨ strIncludes b "shop" then
      "commercial"
    else if strIncludes b "indust" then "industrial"
    else if strIncludes b "church" ∨ strIncludes b "cathedral" then "religious"
    else "building"
  else if truthyOpt (getField p "shop") ∨ truthyOpt (getField p "office") then "commercial"
  else if truthyOpt (getField p "leisure") then "leisure"
  else if truthyOpt (getField p "tourism") then "tourism"
  else if truthyOpt (getField p "landuse") then
    if getField p "landuse" = some (.str "residential") then "residential"
    else if getField p "landuse" = some (.str "industrial") then "industrial"
    else if getField p "landuse" = some (.str "commercial") then "commercial"
    else if getField p "landuse" = some (.str "forest") ∨
            getField p "landuse" = some (.str "park") then "leisure"
    else
      if truthyOpt geom ∧ getField (geom.getD .null) "type" = some (.str "Point") then "point"
      else "unknown"
  else
    if truthyOpt geom ∧ getField (geom.getD .null) "type" = some (.str "Point") then "point"
    else "unknown"

/-- The claim's cascade read literally: property values are compared exactly
as written, with no case normalization. -/
def claimFeatureType (feature : Json) : String := specCascade id feature

/-- The amended cascade: the `amenity` and `building` values are lowercased
before any comparison (the `landuse` comparisons stay exact). -/
def specFeatureTypeLC (feature : Json) : String := specCascade asciiToLower feature

/-! ## Legend filtering (`applyLegendFilter`, MapContainer.vue 505-546) -/

/-- The nine legend categories of ColorLegend.vue, in display order. -/
def legendCategories : List String :=
  ["residential", "commercial", "industrial", "education", "healthcare",
   "religious", "leisure", "tourism", "unknown"]

/-- The filter predicate of `applyLegendFilter`: keep a feature whose
classification is in the selected list, or whose classification is
`unknown` while `unknown` is selected (the second disjunct is redundant). -/
def legendFilteredFeatures (selected : List String) (features : List Json) : List Json :=
  features.filter fun f =>
    selected.contains (getFeatureType f) ||
      (getFeatureType f == "unknown" && selected.contains "unknown")

/-- Build a FeatureCollection document from a feature list. -/
def mkFC (features : List Json) : Json :=
  .obj [("type", .str "FeatureCollection"), ("features", .arr features)]

/-- Shared orchestrator-owned helper state: the members of the `provided`
context object that the claims are about. Map layers are modelled by the
document each renders. -/
structure Helpers where
  lastGeoJSON : Option Json := none
  lastClip : Option Json := none
  geoJsonLayer : Option Json := none
  aiLayer : Option Json := none
deriving DecidableEq

/-- `applyLegendFilter(selectedCategories)`: when a last document is stored,
remove the rendered layer and rebuild it from the document's features
filtered by the selected categories. A stored document whose `features`
member is a truthy non-array makes the rebuild throw after the removal, so
the layer ends up absent. -/
def applyLegendFilter (h : Helpers) (selected : List String) : Helpers :=
  match h.lastGeoJSON with
  | none => h
  | some doc =>
      match getField doc "features" with
      | some (.arr fs) => { h with geoJsonLayer := some (mkFC (legendFilteredFeatures selected fs)) }
      | some v =>
          if v.truthy then { h with geoJsonLayer := none }
          else { h with geoJsonLayer := some (mkFC (legendFilteredFeatures selected [])) }
      | none => { h with geoJsonLayer := some (mkFC (legendFilteredFeatures selected [])) }

/-! ## Spinner visibility tracker (`useSpinner`) -/

/-- Spinner tracker state: the reference count, the derived visibility flag
and whether a fallback auto-hide timeout is currently armed (the timer
handle is abstracted to its presence). -/
structure SpinnerState where
  count : Int
  visible : Bool
  timer : Bool
deriving DecidableEq, Repr

/-- Initial tracker state. -/
def initSpinner : SpinnerState := ⟨0, false, false⟩

/-- The calls a client (or the timer itself) can make on the tracker.
`show` carries the optional per-call timeout; `timerFire` is the armed
fallback timeout elapsing. -/
inductive SpinnerOp where
  | show (timeoutMs : Option Int)
  | hide
  | reset
  | timerFire
deriving DecidableEq, Repr

/-- One call on the tracker; `autoHideMs` is the module-level default
fallback duration (60000 unless overridden at construction). -/
def spinnerStep (autoHideMs : Int) (s : SpinnerState) : SpinnerOp → SpinnerState
  | .show none =>
      let c := s.count + 1
      { count := c, visible := decide (0 < c), timer := decide (0 < autoHideMs) }
  | .show (some t) =>
      let c := s.count + 1
      { count := c, visible := decide (0 < c), timer := decide (0 < t) }
  | .hide =>
      let c := max 0 (s.count - 1)
      { count := c, visible := decide (0 < c), timer := if c = 0 then false else s.timer }
  | .reset => ⟨0, false, false⟩
  | .timerFire => if s.timer then ⟨0, false, false⟩ else s

/-- Run a call sequence from a given state. -/
def runSpinnerFrom (autoHideMs : Int) (s : SpinnerState) (ops : List SpinnerOp) : SpinnerState :=
  ops.foldl (spinnerStep autoHideMs) s

/-- Run a call sequence from the initial state. -/
def runSpinner (autoHideMs : Int) (ops : List SpinnerOp) : SpinnerState :=
  runSpinnerFrom autoHideMs initSpinner ops

/-! ## AI/augmentation service client (geojsonService.js) -/

/-- The observable parts of a `fetch` response: success flag, status data,
the body as text, and the body as parsed JSON (`none` models a body on
which `res.json()` throws). -/
structure HttpResponse where
  ok : Bool
  status : ℕ
  statusText : String
  bodyText : String
  bodyJson : Option Json
deriving DecidableEq

/-- `handleResponseError`: the error message for a non-success response is
the body text, else the status text, else `HTTP <status>`. -/
def handleResponseError (r : HttpResponse) : String :=
  if r.bodyText ≠ "" then r.bodyText
  else if r.statusText ≠ "" then r.statusText
  else "HTTP " ++ toString r.status

/-- `isValidGeoJSON(obj)`: a truthy value whose `type` is the string
`FeatureCollection` or `Feature`. -/
def isValidGeoJSON (j : Json) : Bool :=
  j.truthy && (decide (getField j "type" = some (.str "FeatureCollection")) ||
    decide (getField j "type" = some (.str "Feature")))

/-- Outcome of `augmentGeoJSON`: the settled promise and whether the
network was reached. -/
structure AugmentOutcome where
  result : Except String Json
  fetched : Bool

/-- `augmentGeoJSON(geojson, scriptId)` with the single network interaction
supplied as an oracle (`none` models the fetch itself rejecting). -/
def augmentGeoJSON (geojson : Json) (scriptId : String)
    (fetchResult : Option HttpResponse) : AugmentOutcome :=
  if ¬ isValidGeoJSON geojson then ⟨.error "Invalid GeoJSON input", false⟩
  else if scriptId = "" then ⟨.error "scriptId is required", false⟩
  else
    match fetchResult with
    | none => ⟨.error "NetworkError: fetch failed", true⟩
    | some r =>
        if ¬ r.ok then ⟨.error (handleResponseError r), true⟩
        else
          match r.bodyJson with
          | none => ⟨.error "SyntaxError: response body is not JSON", true⟩
          | some data =>
              match getField data "geojson" with
              | some g =>
                  if data.truthy && g.truthy && isValidGeoJSON g then ⟨.ok g, true⟩
                  else ⟨.error "Invalid response from augment endpoint", true⟩
              | none => ⟨.error "Invalid response from augment endpoint", true⟩

/-! ## Readable-area formatter override (MapContainer.vue 196-226) -/

/-- The second argument of `L.GeometryUtil.readableArea`: a unit string, a
boolean, or an explicit unit list (`none` models `undefined`). -/
inductive MetricArg where
  | ofString (s : String)
  | ofBool (b : Bool)
  | ofList (l : List String)
deriving DecidableEq

/-- JS truthiness of the `metric` argument (an array is always truthy). -/
def metricTruthy : Option MetricArg → Bool
  | none => false
  | some (.ofString s) => decide (s ≠ "")
  | some (.ofBool b) => b
  | some (.ofList _) => true

/-- The allowed unit set resolved from the `metric` argument. -/
def metricUnits : Option MetricArg → List String
  | some (.ofString s) => [s]
  | some (.ofBool _) => ["ha", "m"]
  | some (.ofList l) => l
  | none => []

/-- Multiply a rational by the fraction `numer / denom`, written on the raw
numerator and denominator so that concrete instances evaluate by integer
arithmetic (the library multiplication is irreducible to the kernel). The
scalings of `readableArea` are the exact values of their double-precision
counterparts at every input examined here. -/
def ratScale (q : ℚ) (numer : ℤ) (denom : ℕ) : ℚ :=
  mkRat (q.num * numer) (q.den * denom)

/-- `L.GeometryUtil.formattedNumber(n, precision)`, i.e. `toFixed`: round to
`prec` decimal places and render with exactly that many fraction digits.
The rounded integer `⌊q·10^prec + 1/2⌋` is computed from the rational's
numerator and denominator directly. -/
def formattedNumber (q : ℚ) (prec : ℕ) : String :=
  let n : ℤ := Int.fdiv (q.num * ((10 ^ prec : ℕ) : ℤ) * 2 + (q.den : ℤ)) ((q.den : ℤ) * 2)
  let m := n.natAbs
  let base := (10 : ℕ) ^ prec
  let fpStr := toString (m % base)
  let pad := String.mk (List.replicate (prec - fpStr.length) '0')
  (if n < 0 then "-" else "") ++ toString (m / base) ++
    (if prec = 0 then "" else "." ++ pad ++ fpStr)

/-- The `readableArea` override installed over the drawing toolbar's
formatter: area in square meters, metric/imperial selector. -/
def readableArea (area : ℚ) (metric : Option MetricArg) : String :=
  if metricTruthy metric then
    let units := metricUnits metric
    if area ≥ 1000000 ∧ units.contains "km" then
      formattedNumber (ratScale area 1 1000000) 2 ++ " km²"
    else if area ≥ 10000 ∧ units.contains "ha" then
      formattedNumber (ratScale area 1 10000) 2 ++ " ha"
    else formattedNumber area 0 ++ " m²"
  else
    let a := ratScale area 1000000 836127
    if a ≥ 3097600 then formattedNumber (ratScale a 1 3097600) 2 ++ " mi²"
    else if a ≥ 4840 then formattedNumber (ratScale a 1 4840) 2 ++ " acres"
    else formattedNumber a 0 ++ " yd²"

/-! ## Search (`handleSearch`, MapContainer.vue 229-258; toolbar `onSearch`) -/

/-- A place-search result row: the fields the handler consumes. -/
structure SearchHit where
  lat : ℚ
  lon : ℚ
  displayName : String
deriving DecidableEq

/-- The map view and markers the search handler can touch, together with
the shared helper state. -/
structure MapSession where
  center : ℚ × ℚ
  zoom : ℤ
  searchMarker : Option SearchHit := none
  helpers : Helpers
deriving DecidableEq

/-- Outcome of a search: the session, the spinner, and whether a network
request was issued. -/
structure SearchOutcome where
  session : MapSession
  spinner : SpinnerState
  fetched : Bool

/-- `handleSearch(query)`: an empty query returns immediately; otherwise the
geocoder is queried (oracle: `none` = network/parse failure, otherwise the
parsed result rows). The first row recenters the view to zoom 15 and
replaces the search marker. -/
def handleSearch (st : MapSession) (sp : SpinnerState) (autoHideMs : Int)
    (query : String) (fetchResult : Option (List SearchHit)) : SearchOutcome :=
  if query = "" then ⟨st, sp, false⟩
  else
    let sp1 := spinnerStep autoHideMs sp (.show none)
    match fetchResult with
    | none => ⟨st, spinnerStep autoHideMs sp1 .hide, true⟩
    | some [] => ⟨st, spinnerStep autoHideMs sp1 .hide, true⟩
    | some (hit :: _) =>
        ⟨{ st with center := (hit.lat, hit.lon), zoom := 15, searchMarker := some hit },
         spinnerStep autoHideMs sp1 .hide, true⟩

/-- The toolbar's `onSearch`: invoke the injected handler only when the
query text is non-empty (the text is not trimmed first). -/
def onSearch (st : MapSession) (sp : SpinnerState) (autoHideMs : Int)
    (q : String) (fetchResult : Option (List SearchHit)) : SearchOutcome :=
  if q ≠ "" then handleSearch st sp autoHideMs q fetchResult else ⟨st, sp, false⟩

/-! ## Chat widget operations (ChatWindow.vue) -/

/-- The chat widget's own state: its documents, transcript and status line. -/
structure ChatState where
  uploadedGeojson : Option Json := none
  latestGeojson : Option Json := none
  transcript : List (String × String) := []
  errorMsg : Option String := none
  uploadStatus : Option String := none
deriving DecidableEq

/-- `handleFile` of the chat widget: parse the chosen file (`none` models a
parse throw), require a Feature/FeatureCollection, then adopt the document
as uploaded and latest and write it into the shared helper state. -/
def chatHandleFile (h : Helpers) (c : ChatState) (fileParse : Option Json) :
    Helpers × ChatState :=
  match fileParse with
  | none =>
      (h, { c with uploadStatus := some "Upload failed",
                   errorMsg := some "Could not read file" })
  | some parsed =>
      if isValidGeoJSON parsed then
        ({ h with lastGeoJSON := some parsed },
         { c with uploadedGeojson := some parsed, latestGeojson := some parsed,
                  uploadStatus := some "GeoJSON loaded" })
      else
        (h, { c with uploadStatus := some "Upload failed",
                     errorMsg := some "File is not valid GeoJSON (Feature or FeatureCollection)" })

/-- `handleSend` of the chat widget: ignore blank or in-flight submissions,
append the user message, send the prompt (`sendResult` oracle: `none` =
rejected call), append the reply, and if the reply parses as a
Feature/FeatureCollection (`replyParse` oracle is the `JSON.parse` result)
adopt it and write it into the shared helper state. -/
def chatHandleSend (h : Helpers) (c : ChatState) (promptText : String)
    (loading : Bool) (sendResult : Option String) (replyParse : Option Json) :
    Helpers × ChatState :=
  let text := promptText.trim
  if text = "" ∨ loading then (h, c)
  else
    let c1 := { c with transcript := c.transcript ++ [("You", text)] }
    match sendResult with
    | none => (h, { c1 with errorMsg := some "Could not reach AI service." })
    | some reply =>
        let replyText := if reply = "" then "No response" else reply
        let c2 := { c1 with transcript := c1.transcript ++ [("AI", replyText)] }
        match replyParse with
        | some parsed =>
            if isValidGeoJSON parsed then
              ({ h with lastGeoJSON := some parsed },
               { c2 with latestGeojson := some parsed,
                         uploadStatus := some "AI returned GeoJSON" })
            else (h, c2)
        | none => (h, c2)

/-! ## Draw-control shape events (DrawControls.vue, richer variant) -/

/-- The shape-created listener's write: store the drawn shape as the shared
last clip (the subsequent export/download goes through orchestrator
callbacks and is modelled separately). -/
def drawCreated (h : Helpers) (shape : Json) : Helpers :=
  { h with lastClip := some shape }

/-- The shape-edited listener: the first remaining shape becomes the clip,
or the clip is cleared when none remain. -/
def drawEdited (h : Helpers) (remaining : List Json) : Helpers :=
  match remaining with
  | g :: _ => { h with lastClip := some g }
  | [] => { h with lastClip := none }

/-- The shape-deleted listener: clear the clip when no shapes remain, else
keep the first remaining shape. -/
def drawDeleted (h : Helpers) (remaining : List Json) : Helpers :=
  match remaining with
  | [] => { h with lastClip := none }
  | g :: _ => { h with lastClip := some g }

/-! ## AI-run payload construction (`runAI`, toolbar richer variant) -/

/-- A mutable JS object as a field list, and a heap of such objects so that
object identity and in-place mutation are observable. -/
abbrev JSObj := List (String × Json)

/-- A store of allocated objects; an address is an index, allocation
appends. -/
abbrev Store := List JSObj

/-- The payload construction of `runAI`: when a clip is stored, shallow-copy
the shared last document (`Object.assign({}, …)`), then assign `clip` and
`min_area_fraction` (kept when already truthy, else 0.0) on the copy;
without a clip the shared document's own address is used as the payload.
Returns the updated store and the payload's address. -/
def runAIPayloadObj (doc : JSObj) (lastClip : Json) : JSObj :=
  let copy1 := setFieldList doc "clip" lastClip
  let mafVal : Json := match lookupField copy1 "min_area_fraction" with
    | some v => if v.truthy then v else .num 0
    | none => .num 0
  setFieldList copy1 "min_area_fraction" mafVal

/-- The store-level effect of building the payload: with a truthy clip a
fresh object (the mutated shallow copy) is allocated and becomes the
payload; without one the shared document's own address is the payload. -/
def runAIPayload (store : Store) (lastDocAddr : ℕ) (lastClip : Option Json) :
    Store × ℕ :=
  if truthyOpt lastClip then
    (store ++ [runAIPayloadObj (store.getD lastDocAddr []) (lastClip.getD .null)],
     store.length)
  else (store, lastDocAddr)

/-! ## Area-bounded export filtering (`exportGeoJSON`, MapContainer.vue 577-634) -/

/-- The id a feature is de-duplicated by: `f.id`, else `properties.id`, else
`properties['@id']`; collapsed to `none` when the chain ends falsy, since
only truthy ids are recorded or checked. -/
def derivedId (f : Json) : Option Json :=
  let v1 := getField f "id"
  if truthyOpt v1 then v1
  else
    match getField f "properties" with
    | some p =>
        if p.truthy then
          let v2 := getField p "id"
          if truthyOpt v2 then v2
          else
            let v3 := getField p "@id"
            if truthyOpt v3 then v3 else none
        else none
    | none => none

/-- `Object.assign({}, props)`: an object is shallow-copied, a nullish value
yields an empty object. (A primitive with own index properties never occurs
here and is also modelled as empty.) -/
def assignCopyProps : Option Json → Json
  | some (.obj fields) => .obj fields
  | _ => .obj []

/-- The geometry type string consumed by the export filter
(`f.geometry && f.geometry.type`). -/
def exportGeomType (f : Json) : Option Json :=
  match getField f "geometry" with
  | some g => if g.truthy then getField g "type" else none
  | none => none

/-- Per-feature clipping decision: Point/MultiPoint features are kept when
fully within the drawn polygon (`within` oracle; `none` models the within
test throwing); every other feature becomes its intersection with the
polygon carrying a copy of the original's properties (`intersect` oracle;
`none` covers both a null intersection and a throwing one, which the code
treats alike), else is kept only when fully within. -/
def clipFeature (within : Json → Option Bool) (intersect : Json → Option Json)
    (f : Json) : Option Json :=
  if exportGeomType f = some (.str "Point") ∨ exportGeomType f = some (.str "MultiPoint") then
    match within f with
    | some true => some f
    | _ => none
  else
    match intersect f with
    | some inter => some (setField inter "properties" (assignCopyProps (getField f "properties")))
    | none =>
        match within f with
        | some true => some f
        | _ => none

/-- The export loop: walk the features, skip a feature whose truthy derived
id was already kept, keep the clipping result and record the id. -/
def exportFilterAux (within : Json → Option Bool) (intersect : Json → Option Json)
    (seen : List Json) : List Json → List Json
  | [] => []
  | f :: rest =>
      match derivedId f with
      | some v =>
          if seen.contains v then exportFilterAux within intersect seen rest
          else
            match clipFeature within intersect f with
            | some g => g :: exportFilterAux within intersect (v :: seen) rest
            | none => exportFilterAux within intersect seen rest
      | none =>
          match clipFeature within intersect f with
          | some g => g :: exportFilterAux within intersect seen rest
          | none => exportFilterAux within intersect seen rest

/-- `exportGeoJSON` after the third-party conversion: filter a
FeatureCollection's features against the drawn polygon; anything else is
returned unchanged. -/
def exportGeoJSON (within : Json → Option Bool) (intersect : Json → Option Json)
    (converted : Json) : Json :=
  if converted.truthy ∧ getField converted "type" = some (.str "FeatureCollection") then
    match getField converted "features" with
    | some (.arr fs) => mkFC (exportFilterAux within intersect [] fs)
    | _ => converted
  else converted

/-- The claim's per-feature rule, as the claim words it: a Point or
MultiPoint feature is kept exactly when it lies fully within the drawn
polygon; any other feature is replaced by its intersection with the polygon
(properties set to a copy of the original's) when an intersection geometry
is produced, and otherwise kept only if fully within. -/
def claimKeeps (within : Json → Option Bool) (intersect : Json → Option Json)
    (f : Json) : Option Json :=
  if exportGeomType f = some (.str "Point") ∨ exportGeomType f = some (.str "MultiPoint") then
    if within f = some true then some f else none
  else
    match intersect f with
    | some inter => some (setField inter "properties" (assignCopyProps (getField f "properties")))
    | none => if within f = some true then some f else none

/-- The claim's whole filter: apply the per-feature rule in order, letting
at most one feature per truthy derived id into the output. -/
def claimExportFeatures (within : Json → Option Bool) (intersect : Json → Option Json)
    (keptIds : List Json) : List Json → List Json
  | [] => []
  | f :: rest =>
      match derivedId f with
      | some v =>
          if keptIds.contains v then claimExportFeatures within intersect keptIds rest
          else
            match claimKeeps within intersect f with
            | some g => g :: claimExportFeatures within intersect (v :: keptIds) rest
            | none => claimExportFeatures within intersect keptIds rest
      | none =>
          match claimKeeps within intersect f with
          | some g => g :: claimExportFeatures within intersect keptIds rest
          | none => claimExportFeatures within intersect keptIds rest

/-! ## Upload pipeline (`handleUpload`, MapContainer.vue 260-469) -/

/-- A selected upload file: its name and the result of
`JSON.parse(await file.text())` (`none` models the parse throwing). -/
structure UploadFile where
  name : String
  parse : Option Json
deriving DecidableEq

/-- The oracle for one run of the upload pipeline: the user's confirmation
answers and the network responses of each stage, in pipeline order
(`none` for a fetch models the request itself rejecting). -/
structure UploadOracle where
  useGemini : Bool
  geminiFetch : Option HttpResponse
  geminiWantDownload : Bool
  doProcess : Bool
  processFetch : Option HttpResponse
  hullFetch : Option HttpResponse
  placeFetch : Option HttpResponse
  placeWantDownload : Bool
  placeUploadNow : Bool
  finalSaveConfirm : Bool

/-- Outcome of the pipeline: the shared state, the spinner, the message of
the error alerted by the top-level catch (if any), the offered downloads
(filename and content, in order) and the documents sent to the persistence
endpoint (in order). -/
structure UploadResult where
  helpers : Helpers
  spinner : SpinnerState
  errorMsg : Option String
  downloads : List (String × Json)
  saves : List Json

/-- The basename used for download filenames:
`(file.name || 'uploaded.geojson').replace(/\.geojson$/i, '')`. -/
def uploadBasename (name : String) : String :=
  let n := if name = "" then "uploaded.geojson" else name
  if strEndsWith (asciiToLower n) ".geojson" then n.dropRight 8 else n

/-- Tag one feature with the `_uploaded_from_file` marker: `f.properties`
is defaulted to an object when falsy; the marker assignment on a truthy
non-object properties value throws and is swallowed. Non-object features
are left alone (the assignment throws into an ignoring catch). -/
def markFeature (f : Json) : Json :=
  match f with
  | .obj _ =>
      let props : Json := match getField f "properties" with
        | some p => if p.truthy then p else .obj []
        | none => .obj []
      match props with
      | .obj _ => setField f "properties" (setField props "_uploaded_from_file" (.bool true))
      | _ => setField f "properties" props
  | _ => f

/-- Tag an uploaded document's features with `_uploaded_from_file`: every
feature of a FeatureCollection with an array `features`, or the single
Feature itself; anything else is untouched. -/
def markUploaded (gj : Json) : Json :=
  if getField gj "type" = some (.str "FeatureCollection") then
    match getField gj "features" with
    | some (.arr fs) => setField gj "features" (.arr (fs.map markFeature))
    | _ => gj
  else if getField gj "type" = some (.str "Feature") then markFeature gj
  else gj

/-- The optional Gemini enrichment stage: its own try/catch/finally never
escapes. On a success response whose parsed body has a truthy `geojson`,
that value replaces the working document and may be offered for download;
every other outcome (network failure, non-success, no/unparseable body)
leaves the document unchanged. The stage's extra spinner show/hide pair is
balanced within it. -/
def geminiStage (autoHideMs : Int) (processed : Json) (base : String)
    (sp : SpinnerState) (o : UploadOracle) :
    Json × SpinnerState × List (String × Json) :=
  if o.useGemini then
    let sp1 := spinnerStep autoHideMs sp (.show none)
    let spDone := spinnerStep autoHideMs sp1 .hide
    match o.geminiFetch with
    | none => (processed, spDone, [])
    | some r =>
        let enriched : Option Json :=
          if r.ok then
            match r.bodyJson with
            | some d =>
                if d.truthy then
                  match getField d "geojson" with
                  | some g => if g.truthy then some g else none
                  | none => none
                else none
            | none => none
          else none
        match enriched with
        | some g =>
            let dls := if o.geminiWantDownload then [(base ++ "_gemini_enriched.geojson", g)] else []
            (g, spDone, dls)
        | none => (processed, spDone, [])
  else (processed, sp, [])

/-- Result of the confirmed backend-process stage and its two chained
augmentation calls. -/
structure ProcessOut where
  processed : Json
  downloads : List (String × Json)
  saves : List Json
  uploadedFromPlaceEnrich : Bool

/-- The backend process stage: a failed or non-success process call throws
to the pipeline's top-level catch (`Except.error`); afterwards the
`dominant_type_hull` and `place_enrich` augmentations each adopt a truthy
`geojson` result if their call succeeds (failures are swallowed), the
place result may be downloaded and immediately persisted, and the edited
document is always offered for download. -/
def processStage (processed : Json) (base : String) (o : UploadOracle) :
    Except String ProcessOut :=
  match o.processFetch with
  | none => .error "NetworkError: fetch failed"
  | some r =>
      if ¬ r.ok then
        .error (if r.bodyText ≠ "" then r.bodyText else "Server-Fehler beim Verarbeiten")
      else
        match r.bodyJson with
        | none => .error "SyntaxError: response body is not JSON"
        | some data =>
            if data = .null then .error "TypeError: cannot read properties of null"
            else
              let p2 : Json := match getField data "geojson" with
                | some g => if g.truthy then g else processed
                | none => processed
              let p3 : Json := match o.hullFetch with
                | some hr =>
                    if hr.ok then
                      match hr.bodyJson with
                      | some hd =>
                          if hd.truthy then
                            match getField hd "geojson" with
                            | some g => if g.truthy then g else p2
                            | none => p2
                          else p2
                      | none => p2
                    else p2
                | none => p2
              let placeOut : Json × List (String × Json) × List Json × Bool :=
                match o.placeFetch with
                | some pr =>
                    if pr.ok then
                      match pr.bodyJson with
                      | some pd =>
                          if pd.truthy then
                            match getField pd "geojson" with
                            | some g =>
                                if g.truthy then
                                  let dls := if o.placeWantDownload then
                                    [(base ++ "_place_enriched.geojson", g)] else []
                                  let sv : List Json × Bool :=
                                    if o.placeUploadNow then ([g], true) else ([], false)
                                  (g, dls, sv.1, sv.2)
                                else (p3, [], [], false)
                            | none => (p3, [], [], false)
                          else (p3, [], [], false)
                      | none => (p3, [], [], false)
                    else (p3, [], [], false)
                | none => (p3, [], [], false)
              .ok ⟨placeOut.1,
                   placeOut.2.1 ++ [(base ++ "_edited.geojson", placeOut.1)],
                   placeOut.2.2.1, placeOut.2.2.2⟩

/-- `handleUpload(file)`: parse and validate the document (tagging its
features first), optionally Gemini-enrich, optionally process with the
chained augmentations, then render the working document as the new layer,
store it as the shared last document and offer persistence. Every throw
lands in the top-level catch and the spinner is hidden in the `finally`. -/
def handleUpload (h : Helpers) (sp : SpinnerState) (autoHideMs : Int)
    (file : Option UploadFile) (o : UploadOracle) : UploadResult :=
  match file with
  | none => ⟨h, sp, none, [], []⟩
  | some f =>
      let sp1 := spinnerStep autoHideMs sp (.show none)
      match f.parse with
      | none => ⟨h, spinnerStep autoHideMs sp1 .hide, some "SyntaxError: JSON parse failed", [], []⟩
      | some gj0 =>
          let gj := markUploaded gj0
          if ¬ (getField gj "type" = some (.str "FeatureCollection") ∨
                getField gj "type" = some (.str "Feature")) then
            ⟨h, spinnerStep autoHideMs sp1 .hide,
             some (if gj = .null then "TypeError: cannot read properties of null"
               else "Nicht unterstützter GeoJSON-Typ"), [], []⟩
          else
            let base := uploadBasename f.name
            let g1 := geminiStage autoHideMs gj base sp1 o
            let p1 := g1.1
            let sp2 := g1.2.1
            let dls1 := g1.2.2
            if o.doProcess then
              match processStage p1 base o with
              | .error msg => ⟨h, spinnerStep autoHideMs sp2 .hide, some msg, dls1, []⟩
              | .ok pout =>
                  let hFinal := { h with lastGeoJSON := some pout.processed,
                                         geoJsonLayer := some pout.processed }
                  let saves :=
                    if ¬ pout.uploadedFromPlaceEnrich ∧ o.finalSaveConfirm then
                      pout.saves ++ [pout.processed]
                    else pout.saves
                  ⟨hFinal, spinnerStep autoHideMs sp2 .hide, none,
                   dls1 ++ pout.downloads, saves⟩
            else
              let hFinal := { h with lastGeoJSON := some p1, geoJsonLayer := some p1 }
              let saves := if o.finalSaveConfirm then [p1] else []
              ⟨hFinal, spinnerStep autoHideMs sp2 .hide, none, dls1, saves⟩

/-! ## Concrete example values used by counterexamples and witnesses -/

/-- A feature whose `amenity` is the capitalized string `School`. -/
def exSchool : Json := .obj [("properties", .obj [("amenity", .str "School")])]

/-- A park feature with id `a`. -/
def exDetA : Json :=
  .obj [("id", .str "a"), ("properties", .obj [("leisure", .str "park")]),
        ("geometry", .obj [("type", .str "Polygon")])]

/-- The same park feature under id `b`. -/
def exDetB : Json :=
  .obj [("id", .str "b"), ("properties", .obj [("leisure", .str "park")]),
        ("geometry", .obj [("type", .str "Polygon")])]

/-- A feature classified `building` (outside the nine legend categories). -/
def bFeatC2 : Json := .obj [("properties", .obj [("building", .str "yes")])]

/-- Shared state holding a one-feature document classified `building`. -/
def hC2 : Helpers := { lastGeoJSON := some (mkFC [bFeatC2]) }

/-- A feature classified `residential`. -/
def fResC2 : Json := .obj [("properties", .obj [("building", .str "house")])]

/-- Shared state holding a one-feature residential document. -/
def hC2w : Helpers := { lastGeoJSON := some (mkFC [fResC2]) }

/-- The spinner invariant: the count is never negative and visibility holds
exactly when the count is positive. -/
def SpinnerInv (s : SpinnerState) : Prop :=
  0 ≤ s.count ∧ (s.visible = true ↔ 0 < s.count)

/-- A well-formed empty FeatureCollection. -/
def vDocC4 : Json := .obj [("type", .str "FeatureCollection"), ("features", .arr [])]

/-- A non-success response with empty body text and empty status text. -/
def r0C4 : HttpResponse := ⟨false, 500, "", "", none⟩

/-- A valid Feature returned inside an augmentation response. -/
def innerC4 : Json := .obj [("type", .str "Feature")]

/-- A well-shaped augmentation response body. -/
def dataC4 : Json :=
  .obj [("status", .str "ok"), ("script_id", .str "s1"), ("geojson", innerC4)]

/-- A success response carrying `dataC4`. -/
def okRespC4 : HttpResponse := ⟨true, 200, "OK", "", some dataC4⟩

/-- An uploaded document whose top-level `type` is `Point` (a bare geometry,
not a Feature/FeatureCollection). -/
def gjC5 : Json := .obj [("type", .str "Point"), ("coordinates", .arr [.num 16, .num 48])]

/-- The upload file carrying `gjC5`. -/
def fileC5 : UploadFile := ⟨"test.geojson", some gjC5⟩

/-- An oracle declining every confirmation, with no network traffic. -/
def oC5 : UploadOracle := ⟨false, none, false, false, none, none, none, false, false, false⟩

/-- The metric argument resolving to the unit list km/ha/m. -/
def metricKmHaM : Option MetricArg := some (.ofList ["km", "ha", "m"])

/-- A point feature with id `p1`. -/
def pInC7 : Json := .obj [("id", .str "p1"), ("geometry", .obj [("type", .str "Point")])]

/-- A point feature with id `p2`, placed outside the drawn polygon. -/
def pOutC7 : Json := .obj [("id", .str "p2"), ("geometry", .obj [("type", .str "Point")])]

/-- A second feature with the already-used id `p1`. -/
def pDupC7 : Json :=
  .obj [("id", .str "p1"), ("properties", .obj [("name", .str "dup")]),
        ("geometry", .obj [("type", .str "Point")])]

/-- A within oracle that puts exactly `pOutC7` outside the polygon. -/
def exWithinC7 : Json → Option Bool := fun f => some (decide (f ≠ pOutC7))

/-- An intersect oracle producing no intersection geometry. -/
def exIntersectC7 : Json → Option Json := fun _ => none

/-- A concrete map session for the search claims. -/
def stC8 : MapSession := ⟨(0, 0), 13, none, {}⟩

/-- A valid Feature document arriving at the chat widget. -/
def fcC9 : Json := .obj [("type", .str "Feature"), ("properties", .obj [])]

/-- A drawn polygon shape as a feature document. -/
def shapeC9 : Json := .obj [("type", .str "Feature"), ("geometry", .obj [("type", .str "Polygon")])]

/-- A stored last document (as a heap object) without `clip` or
`min_area_fraction` keys. -/
def docC10 : JSObj := [("type", .str "FeatureCollection"), ("features", .arr [])]

/-- A one-object store holding `docC10` at address 0. -/
def storeC10 : Store := [docC10]

/-- A stored clip polygon. -/
def clipC10 : Json := .obj [("type", .str "Feature")]

/-! # Theorems -/

theorem spinnerStep_inv (a : Int) (s : SpinnerState) (op : SpinnerOp)
    (h : SpinnerInv s) : SpinnerInv (spinnerStep a s op) := by
  obtain ⟨h1, h2⟩ := h
  cases op with
  | «show» t =>
      cases t with
      | none =>
          refine ⟨?_, ?_⟩
          · show (0 : Int) ≤ s.count + 1
            omega
          · show decide (0 < s.count + 1) = true ↔ 0 < s.count + 1
            simp
      | some v =>
          refine ⟨?_, ?_⟩
          · show (0 : Int) ≤ s.count + 1
            omega
          · show decide (0 < s.count + 1) = true ↔ 0 < s.count + 1
            simp
  | hide =>
      refine ⟨?_, ?_⟩
      · show (0 : Int) ≤ max 0 (s.count - 1)
        exact le_max_left 0 _
      · show decide (0 < max 0 (s.count - 1)) = true ↔ 0 < max 0 (s.count - 1)
        simp
  | reset =>
      exact ⟨le_refl 0, by constructor <;> intro hx <;> simp [spinnerStep] at hx⟩
  | timerFire =>
      by_cases ht : s.timer = true
      · have he : spinnerStep a s .timerFire = ⟨0, false, false⟩ := by
          simp [spinnerStep, ht]
        rw [he]
        exact ⟨le_refl 0, by constructor <;> intro hx <;> simp at hx⟩
      · have he : spinnerStep a s .timerFire = s := by
          simp [spinnerStep, ht]
        rw [he]
        exact ⟨h1, h2⟩

theorem runSpinnerFrom_inv (a : Int) :
    ∀ (ops : List SpinnerOp) (s : SpinnerState), SpinnerInv s →
      SpinnerInv (runSpinnerFrom a s ops)
  | [], _, h => h
  | op :: rest, s, h =>
      runSpinnerFrom_inv a rest (spinnerStep a s op) (spinnerStep_inv a s op h)

/-- C1 (counterexample): on a feature whose `amenity` is `School`, the code
classifies `education` (it lowercases the value first), while the claim's
cascade read literally classifies `amenity`; the claim as stated is false. -/
theorem C1_counterexample : getFeatureType exSchool ≠ claimFeatureType exSchool := by
  decide

/-- C1 (amended): `getFeatureType` follows the spec's ordered first-match
cascade with the `amenity` and `building` values lowercased before
comparison; and it is deterministic, a pure function of the feature's
`properties` and `geometry` fields. -/
theorem C1_classification :
    (∀ f : Json, getFeatureType f = specFeatureTypeLC f) ∧
    (∀ f g : Json, getField f "properties" = getField g "properties" →
      getField f "geometry" = getField g "geometry" →
      getFeatureType f = getFeatureType g) := by
  constructor
  · intro f; rfl
  · intro f g h1 h2
    unfold getFeatureType
    rw [h1, h2]

/-- C1 (witness): the determinism clause applied to two concrete features
that differ only in their id. -/
theorem C1_witness : getFeatureType exDetA = getFeatureType exDetB :=
  C1_classification.2 exDetA exDetB rfl rfl

/-- C2 (counterexample): a stored document with one feature tagged
`building: yes` classifies as `building`, which is not one of the nine
legend categories, so filtering with all nine selected drops it: the
rebuilt layer is empty rather than holding the original feature. -/
theorem C2_counterexample :
    (applyLegendFilter hC2 legendCategories).geoJsonLayer = some (mkFC []) ∧
    (applyLegendFilter hC2 legendCategories).geoJsonLayer ≠ some (mkFC [bFeatC2]) := by
  constructor
  · decide
  · decide

/-- C2 (amended): legend filtering with no categories selected keeps
nothing; with any selection it keeps exactly the features whose
classification is in the selection (so `unknown`-classified features are
kept iff `unknown` is selected); with all nine selected the feature count
equals the original count iff every feature classifies into one of the
nine (features classified `amenity`/`building`/`point` are dropped); and
the rebuilt layer holds exactly the filtered features. -/
theorem C2_legend_filter :
    (∀ fs : List Json, legendFilteredFeatures [] fs = []) ∧
    (∀ (sel : List String) (fs : List Json),
      legendFilteredFeatures sel fs =
        fs.filter fun f => sel.contains (getFeatureType f)) ∧
    (∀ fs : List Json,
      (legendFilteredFeatures legendCategories fs).length = fs.length ↔
        ∀ f ∈ fs, getFeatureType f ∈ legendCategories) ∧
    (∀ (h : Helpers) (doc : Json) (fs : List Json) (sel : List String),
      h.lastGeoJSON = some doc → getField doc "features" = some (.arr fs) →
      (applyLegendFilter h sel).geoJsonLayer =
        some (mkFC (legendFilteredFeatures sel fs))) := by
  have key : ∀ (sel : List String) (fs : List Json),
      legendFilteredFeatures sel fs =
        fs.filter fun f => sel.contains (getFeatureType f) := by
    intro sel fs
    unfold legendFilteredFeatures
    apply List.filter_congr
    intro f _
    by_cases hu : getFeatureType f = "unknown"
    · simp [hu]
    · simp [hu]
  refine ⟨?_, key, ?_, ?_⟩
  · intro fs
    rw [key]
    simp
  · intro fs
    rw [key]
    refine Iff.trans List.filter_length_eq_length ?_
    constructor
    · intro h f hf
      have := h f hf
      simpa using this
    · intro h f hf
      simpa using h f hf
  · intro h doc fs sel h1 h2
    simp [applyLegendFilter, h1, h2]

/-- C2 (witness): the layer-rebuild clause applied to a concrete stored
residential document with only `residential` selected. -/
theorem C2_witness :
    (applyLegendFilter hC2w ["residential"]).geoJsonLayer =
      some (mkFC (legendFilteredFeatures ["residential"] [fResC2])) :=
  C2_legend_filter.2.2.2 hC2w (mkFC [fResC2]) [fResC2] ["residential"] rfl rfl

/-- C3: for every finite call sequence on the spinner tracker (shows with
or without per-call timeouts, hides, resets, timer firings), the count
never goes negative and visibility holds iff the count is positive; and a
`hide` on a zero count leaves the count at zero with visibility off. -/
theorem C3_spinner_invariant :
    (∀ (a : Int) (ops : List SpinnerOp),
      0 ≤ (runSpinner a ops).count ∧
      ((runSpinner a ops).visible = true ↔ 0 < (runSpinner a ops).count)) ∧
    (∀ (a : Int) (s : SpinnerState), s.count = 0 →
      (spinnerStep a s .hide).count = 0 ∧ (spinnerStep a s .hide).visible = false) := by
  constructor
  · intro a ops
    exact runSpinnerFrom_inv a ops initSpinner ⟨by simp [initSpinner], by simp [initSpinner]⟩
  · intro a s h
    simp [spinnerStep, h]

/-- C3 (witness): a `hide` on the freshly initialized tracker. -/
theorem C3_witness :
    (spinnerStep 60000 initSpinner .hide).count = 0 ∧
    (spinnerStep 60000 initSpinner .hide).visible = false :=
  C3_spinner_invariant.2 60000 initSpinner rfl

theorem truthy_of_getField {j : Json} {k : String} {v : Json}
    (h : getField j k = some v) : j.truthy = true := by
  cases j <;> simp_all [getField, Json.truthy]

/-- C4 (counterexample): for a non-success response whose body text and
status text are both empty, the failure carries `HTTP 500`, not the (empty)
status text the claim prescribes for an empty body. -/
theorem C4_counterexample :
    (augmentGeoJSON vDocC4 "script" (some r0C4)).result = Except.error "HTTP 500" ∧
    (augmentGeoJSON vDocC4 "script" (some r0C4)).result ≠ Except.error r0C4.statusText := by
  have h1 : (augmentGeoJSON vDocC4 "script" (some r0C4)).result = Except.error "HTTP 500" := rfl
  refine ⟨h1, ?_⟩
  rw [h1]
  intro hcontra
  injection hcontra with h2
  exact absurd h2 (by decide)

/-- C4 (amended): `augmentGeoJSON` fails with InvalidInput, performing no
network call, when the document is not a Feature/FeatureCollection or the
script id is empty; on a non-success response it fails with ServerError
carrying the body text, else the status text, else `HTTP <status>`; on a
success response whose body parses, it returns the `geojson` field when
that is itself a valid Feature/FeatureCollection and otherwise fails with
InvalidResponse. -/
theorem C4_augment :
    (∀ (g : Json) (sid : String) (fr : Option HttpResponse),
      isValidGeoJSON g = false →
      augmentGeoJSON g sid fr = ⟨.error "Invalid GeoJSON input", false⟩) ∧
    (∀ (g : Json) (fr : Option HttpResponse),
      isValidGeoJSON g = true →
      augmentGeoJSON g "" fr = ⟨.error "scriptId is required", false⟩) ∧
    (∀ (g : Json) (sid : String) (r : HttpResponse),
      isValidGeoJSON g = true → sid ≠ "" → r.ok = false →
      augmentGeoJSON g sid (some r) = ⟨.error (handleResponseError r), true⟩) ∧
    (∀ (g : Json) (sid : String) (r : HttpResponse) (data gg : Json),
      isValidGeoJSON g = true → sid ≠ "" → r.ok = true →
      r.bodyJson = some data → getField data "geojson" = some gg →
      isValidGeoJSON gg = true →
      augmentGeoJSON g sid (some r) = ⟨.ok gg, true⟩) ∧
    (∀ (g : Json) (sid : String) (r : HttpResponse) (data : Json),
      isValidGeoJSON g = true → sid ≠ "" → r.ok = true →
      r.bodyJson = some data → getField data "geojson" = none →
      augmentGeoJSON g sid (some r) =
        ⟨.error "Invalid response from augment endpoint", true⟩) ∧
    (∀ (g : Json) (sid : String) (r : HttpResponse) (data gg : Json),
      isValidGeoJSON g = true → sid ≠ "" → r.ok = true →
      r.bodyJson = some data → getField data "geojson" = some gg →
      isValidGeoJSON gg = false →
      augmentGeoJSON g sid (some r) =
        ⟨.error "Invalid response from augment endpoint", true⟩) := by
  refine ⟨?_, ?_, ?_, ?_, ?_, ?_⟩
  · intro g sid fr hg
    simp [augmentGeoJSON, hg]
  · intro g fr hg
    simp [augmentGeoJSON, hg]
  · intro g sid r hg hsid hok
    simp [augmentGeoJSON, hg, hsid, hok]
  · intro g sid r data gg hg hsid hok hbody hfield hvalid
    have hdt : data.truthy = true := truthy_of_getField hfield
    have hgt : gg.truthy = true := by
      have hv := hvalid
      unfold isValidGeoJSON at hv
      rw [Bool.and_eq_true] at hv
      exact hv.1
    simp [augmentGeoJSON, hg, hsid, hok, hbody, hfield, hdt, hgt, hvalid]
  · intro g sid r data hg hsid hok hbody hfield
    simp [augmentGeoJSON, hg, hsid, hok, hbody, hfield]
  · intro g sid r data gg hg hsid hok hbody hfield hvalid
    simp [augmentGeoJSON, hg, hsid, hok, hbody, hfield, hvalid]

/-- C4 (witness): a concrete success round trip through the valid-response
clause. -/
theorem C4_witness : augmentGeoJSON vDocC4 "s1" (some okRespC4) = ⟨.ok innerC4, true⟩ :=
  C4_augment.2.2.2.1 vDocC4 "s1" okRespC4 dataC4 innerC4 (by decide) (by decide) rfl rfl rfl
    (by decide)

theorem markUploaded_of_invalid {gj : Json}
    (h1 : getField gj "type" ≠ some (.str "FeatureCollection"))
    (h2 : getField gj "type" ≠ some (.str "Feature")) :
    markUploaded gj = gj := by
  unfold markUploaded
  rw [if_neg h1, if_neg h2]

/-- C5: uploading a JSON document whose top-level `type` is neither
`Feature` nor `FeatureCollection` fails (InvalidInput), leaves the shared
helper state - rendered layer and last document included - unchanged,
offers no download, persists nothing, and the spinner shown by the pipeline
is hidden again on exit (the count returns to its entry value). -/
theorem C5_invalid_upload :
    ∀ (h : Helpers) (sp : SpinnerState) (a : Int) (f : UploadFile)
      (o : UploadOracle) (gj : Json),
      f.parse = some gj →
      getField gj "type" ≠ some (.str "FeatureCollection") →
      getField gj "type" ≠ some (.str "Feature") →
      (handleUpload h sp a (some f) o).helpers = h ∧
      (handleUpload h sp a (some f) o).errorMsg.isSome = true ∧
      (handleUpload h sp a (some f) o).downloads = [] ∧
      (handleUpload h sp a (some f) o).saves = [] ∧
      (handleUpload h sp a (some f) o).spinner =
        spinnerStep a (spinnerStep a sp (.show none)) .hide ∧
      (0 ≤ sp.count → (handleUpload h sp a (some f) o).spinner.count = sp.count) := by
  intro h sp a f o gj hp h1 h2
  have hm : markUploaded gj = gj := markUploaded_of_invalid h1 h2
  have hcond : ¬ (getField gj "type" = some (.str "FeatureCollection") ∨
      getField gj "type" = some (.str "Feature")) := by
    rintro (hc | hc)
    · exact h1 hc
    · exact h2 hc
  have hred : handleUpload h sp a (some f) o =
      ⟨h, spinnerStep a (spinnerStep a sp (.show none)) .hide,
       some (if gj = .null then "TypeError: cannot read properties of null"
         else "Nicht unterstützter GeoJSON-Typ"), [], []⟩ := by
    simp only [handleUpload, hp, hm]
    rw [if_pos hcond]
  rw [hred]
  refine ⟨rfl, rfl, rfl, rfl, rfl, ?_⟩
  intro h0
  show max 0 (sp.count + 1 - 1) = sp.count
  omega

/-- C5 (witness): a concrete upload of a bare `Point` geometry document. -/
theorem C5_witness :
    (handleUpload {} initSpinner 60000 (some fileC5) oC5).helpers = {} ∧
    (handleUpload {} initSpinner 60000 (some fileC5) oC5).errorMsg.isSome = true ∧
    (handleUpload {} initSpinner 60000 (some fileC5) oC5).downloads = [] ∧
    (handleUpload {} initSpinner 60000 (some fileC5) oC5).saves = [] ∧
    (handleUpload {} initSpinner 60000 (some fileC5) oC5).spinner =
      spinnerStep 60000 (spinnerStep 60000 initSpinner (.show none)) .hide ∧
    (0 ≤ initSpinner.count →
      (handleUpload {} initSpinner 60000 (some fileC5) oC5).spinner.count =
        initSpinner.count) :=
  C5_invalid_upload {} initSpinner 60000 fileC5 oC5 gjC5 rfl (by decide) (by decide)

/-- C6 (counterexample): with the km/ha/m unit set, an area of 5,000 m² is
below the 10,000 m² hectare threshold and is reported as `5000 m²`, not
the `0.50 ha` the claim expects. -/
theorem C6_counterexample :
    readableArea 5000 metricKmHaM = "5000 m²" ∧
    readableArea 5000 metricKmHaM ≠ "0.50 ha" := by
  refine ⟨by decide, ?_⟩
  intro hcontra
  rw [show readableArea 5000 metricKmHaM = "5000 m²" from by decide] at hcontra
  exact absurd hcontra (by decide)

/-- C6 (amended): with the km/ha/m unit set, 1,500,000 m² is reported as
`1.50 km²`, 5,000 m² as `5000 m²` (hectares require at least 10,000 m²),
and 50 m² as `50 m²`. -/
theorem C6_readable_area :
    readableArea 1500000 metricKmHaM = "1.50 km²" ∧
    readableArea 5000 metricKmHaM = "5000 m²" ∧
    readableArea 50 metricKmHaM = "50 m²" := by
  refine ⟨?_, ?_, ?_⟩ <;> decide

theorem clipFeature_eq_claimKeeps (w : Json → Option Bool) (i : Json → Option Json)
    (f : Json) : clipFeature w i f = claimKeeps w i f := by
  unfold clipFeature claimKeeps
  by_cases hp : exportGeomType f = some (.str "Point") ∨
      exportGeomType f = some (.str "MultiPoint")
  · rw [if_pos hp, if_pos hp]
    cases hw : w f with
    | none => simp [hw]
    | some b => cases b <;> simp [hw]
  · rw [if_neg hp, if_neg hp]
    cases hi : i f with
    | none =>
        cases hw : w f with
        | none => simp [hw]
        | some b => cases b <;> simp [hw]
    | some g => simp [hi]

theorem exportFilterAux_eq_claim (w : Json → Option Bool) (i : Json → Option Json)
    (fs : List Json) : ∀ seen : List Json,
      exportFilterAux w i seen fs = claimExportFeatures w i seen fs := by
  induction fs with
  | nil => intro seen; rfl
  | cons f rest ih =>
      intro seen
      simp only [exportFilterAux, claimExportFeatures, clipFeature_eq_claimKeeps]
      cases hdi : derivedId f with
      | none =>
          cases hk : claimKeeps w i f with
          | none => simp [hk, ih seen]
          | some g => simp [hk, ih seen]
      | some v =>
          cases hs : seen.contains v with
          | true =>
              have hv : v ∈ seen := by simpa using hs
              simp [hv, ih seen]
          | false =>
              have hv : v ∉ seen := by simpa using hs
              cases hk : claimKeeps w i f with
              | none => simp [hv, hk, ih seen]
              | some g => simp [hv, hk, ih (v :: seen)]

/-- C7: the export filter equals the claim's description - Point/MultiPoint
features are kept iff fully within the drawn polygon, every other feature
becomes its intersection carrying a copy of the original's properties when
one is produced and is otherwise kept only if fully within, and at most
one feature per truthy derived id (own id, else `properties.id`, else
`properties['@id']`) reaches the output - and, concretely, a point inside
is kept, a point outside is excluded, and a feature reusing an
already-kept id is dropped. -/
theorem C7_export_clipping :
    (∀ (w : Json → Option Bool) (i : Json → Option Json) (fs : List Json),
      exportGeoJSON w i (mkFC fs) = mkFC (claimExportFeatures w i [] fs)) ∧
    exportGeoJSON exWithinC7 exIntersectC7 (mkFC [pInC7, pOutC7, pDupC7]) = mkFC [pInC7] := by
  constructor
  · intro w i fs
    have hred : exportGeoJSON w i (mkFC fs) = mkFC (exportFilterAux w i [] fs) := rfl
    rw [hred, exportFilterAux_eq_claim]
  · decide

/-- C8 (counterexample): a whitespace-only query is not trimmed by the
handler or the toolbar wrapper, so it does issue a network request,
contradicting the claim. -/
theorem C8_counterexample :
    (handleSearch stC8 initSpinner 60000 " " (some [])).fetched = true ∧
    (onSearch stC8 initSpinner 60000 " " (some [])).fetched = true := by
  constructor <;> rfl

/-- C8 (amended): an empty query performs no network request and leaves the
session, markers and spinner untouched, both at the handler and through
the toolbar wrapper; but any non-empty query - whitespace-only included -
is sent to the search service. -/
theorem C8_empty_search :
    (∀ (st : MapSession) (sp : SpinnerState) (a : Int) (r : Option (List SearchHit)),
      handleSearch st sp a "" r = ⟨st, sp, false⟩) ∧
    (∀ (st : MapSession) (sp : SpinnerState) (a : Int) (r : Option (List SearchHit)),
      onSearch st sp a "" r = ⟨st, sp, false⟩) ∧
    (∀ (st : MapSession) (sp : SpinnerState) (a : Int) (q : String)
      (r : Option (List SearchHit)),
      q ≠ "" → (handleSearch st sp a q r).fetched = true) := by
  refine ⟨?_, ?_, ?_⟩
  · intro st sp a r
    simp [handleSearch]
  · intro st sp a r
    simp [onSearch]
  · intro st sp a q r hq
    simp only [handleSearch, if_neg hq]
    rcases r with _ | data
    · rfl
    · cases data <;> rfl

/-- C8 (witness): a concrete non-empty query reaches the network. -/
theorem C8_witness : (handleSearch stC8 initSpinner 60000 "Wien" none).fetched = true :=
  C8_empty_search.2.2 stC8 initSpinner 60000 "Wien" none (by decide)

/-- C9 (counterexample): descendant components do mutate the shared helper
object: the chat widget's file upload writes the shared last document, and
the draw control's created handler writes the shared last clip. -/
theorem C9_counterexample :
    (chatHandleFile {} {} (some fcC9)).1 ≠ ({} : Helpers) ∧
    drawCreated {} shapeC9 ≠ ({} : Helpers) := by
  constructor <;> decide

/-- C9 (amended): descendant writes to the shared helper object are exactly
these: the chat widget's send and file-upload flows write only the shared
last document, and only with a validated Feature/FeatureCollection; the
draw control's shape events write only the shared last clip; every other
member (layers, clip resp. document) is untouched by these operations. -/
theorem C9_descendant_writes :
    (∀ (h : Helpers) (c : ChatState) (p : Option Json),
      ((chatHandleFile h c p).1.lastClip = h.lastClip ∧
       (chatHandleFile h c p).1.geoJsonLayer = h.geoJsonLayer ∧
       (chatHandleFile h c p).1.aiLayer = h.aiLayer) ∧
      ((chatHandleFile h c p).1.lastGeoJSON = h.lastGeoJSON ∨
       ∃ j, p = some j ∧ isValidGeoJSON j = true ∧
         (chatHandleFile h c p).1.lastGeoJSON = some j)) ∧
    (∀ (h : Helpers) (c : ChatState) (t : String) (l : Bool)
      (sr : Option String) (rp : Option Json),
      ((chatHandleSend h c t l sr rp).1.lastClip = h.lastClip ∧
       (chatHandleSend h c t l sr rp).1.geoJsonLayer = h.geoJsonLayer ∧
       (chatHandleSend h c t l sr rp).1.aiLayer = h.aiLayer) ∧
      ((chatHandleSend h c t l sr rp).1.lastGeoJSON = h.lastGeoJSON ∨
       ∃ j, rp = some j ∧ isValidGeoJSON j = true ∧
         (chatHandleSend h c t l sr rp).1.lastGeoJSON = some j)) ∧
    (∀ (h : Helpers) (s : Json),
      (drawCreated h s).lastClip = some s ∧
      (drawCreated h s).lastGeoJSON = h.lastGeoJSON ∧
      (drawCreated h s).geoJsonLayer = h.geoJsonLayer ∧
      (drawCreated h s).aiLayer = h.aiLayer) ∧
    (∀ (h : Helpers) (rem : List Json),
      (drawEdited h rem).lastGeoJSON = h.lastGeoJSON ∧
      (drawEdited h rem).geoJsonLayer = h.geoJsonLayer ∧
      (drawEdited h rem).aiLayer = h.aiLayer) ∧
    (∀ (h : Helpers) (rem : List Json),
      (drawDeleted h rem).lastGeoJSON = h.lastGeoJSON ∧
      (drawDeleted h rem).geoJsonLayer = h.geoJsonLayer ∧
      (drawDeleted h rem).aiLayer = h.aiLayer) := by
  refine ⟨?_, ?_, ?_, ?_, ?_⟩
  · intro h c p
    cases p with
    | none => exact ⟨⟨rfl, rfl, rfl⟩, Or.inl rfl⟩
    | some j =>
        by_cases hv : isValidGeoJSON j = true
        · have hred : (chatHandleFile h c (some j)).1 = { h with lastGeoJSON := some j } := by
            simp [chatHandleFile, hv]
          rw [hred]
          exact ⟨⟨rfl, rfl, rfl⟩, Or.inr ⟨j, rfl, hv, rfl⟩⟩
        · have hred : (chatHandleFile h c (some j)).1 = h := by
            simp [chatHandleFile, hv]
          rw [hred]
          exact ⟨⟨rfl, rfl, rfl⟩, Or.inl rfl⟩
  · intro h c t l sr rp
    by_cases he : t.trim = "" ∨ l = true
    · have hred : (chatHandleSend h c t l sr rp).1 = h := by
        simp only [chatHandleSend]
        rw [if_pos he]
      rw [hred]
      exact ⟨⟨rfl, rfl, rfl⟩, Or.inl rfl⟩
    · cases sr with
      | none =>
          have hred : (chatHandleSend h c t l none rp).1 = h := by
            simp only [chatHandleSend]
            rw [if_neg he]
          rw [hred]
          exact ⟨⟨rfl, rfl, rfl⟩, Or.inl rfl⟩
      | some reply =>
          cases rp with
          | none =>
              have hred : (chatHandleSend h c t l (some reply) none).1 = h := by
                simp only [chatHandleSend]
                rw [if_neg he]
              rw [hred]
              exact ⟨⟨rfl, rfl, rfl⟩, Or.inl rfl⟩
          | some parsed =>
              by_cases hv : isValidGeoJSON parsed = true
              · have hred : (chatHandleSend h c t l (some reply) (some parsed)).1 =
                    { h with lastGeoJSON := some parsed } := by
                  simp only [chatHandleSend]
                  rw [if_neg he]
                  simp [hv]
                rw [hred]
                exact ⟨⟨rfl, rfl, rfl⟩, Or.inr ⟨parsed, rfl, hv, rfl⟩⟩
              · have hred : (chatHandleSend h c t l (some reply) (some parsed)).1 = h := by
                  simp only [chatHandleSend]
                  rw [if_neg he]
                  simp [hv]
                rw [hred]
                exact ⟨⟨rfl, rfl, rfl⟩, Or.inl rfl⟩
  · intro h s
    exact ⟨rfl, rfl, rfl, rfl⟩
  · intro h rem
    cases rem <;> exact ⟨rfl, rfl, rfl⟩
  · intro h rem
    cases rem <;> exact ⟨rfl, rfl, rfl⟩

theorem lookupField_setFieldList_self (o : JSObj) (k : String) (v : Json) :
    lookupField (setFieldList o k v) k = some v := by
  induction o with
  | nil => simp [setFieldList, lookupField]
  | cons kv rest ih =>
      obtain ⟨k', v'⟩ := kv
      by_cases hk : k' = k
      · simp [setFieldList, lookupField, hk]
      · simp [setFieldList, lookupField, hk, ih]

theorem lookupField_setFieldList_ne (o : JSObj) (k k' : String) (v : Json)
    (h : k' ≠ k) : lookupField (setFieldList o k v) k' = lookupField o k' := by
  induction o with
  | nil =>
      simp only [setFieldList, lookupField]
      rw [if_neg fun he => h he.symm]
  | cons kv rest ih =>
      obtain ⟨k₁, v₁⟩ := kv
      by_cases hk : k₁ = k
      · subst hk
        simp only [setFieldList, if_pos rfl, lookupField]
        rw [if_neg fun he => h he.symm, if_neg fun he => h he.symm]
      · simp only [setFieldList, if_neg hk, lookupField]
        by_cases hk' : k₁ = k'
        · rw [if_pos hk', if_pos hk']
        · rw [if_neg hk', if_neg hk', ih]

/-- C10: when a clip is stored, `runAI` sends a freshly allocated shallow
copy of the shared last document, extended with `clip` (the stored clip)
and `min_area_fraction` (the document's own truthy value, else 0); the
shared document object itself is left untouched at its address, so it
never acquires those keys; and with no clip stored the store is unchanged
and the shared document itself is the payload. -/
theorem C10_runAI_payload :
    (∀ (store : Store) (a : ℕ) (c : Option Json), truthyOpt c = false →
      runAIPayload store a c = (store, a)) ∧
    (∀ (store : Store) (a : ℕ) (clip : Json), truthyOpt (some clip) = true →
      a < store.length →
      runAIPayload store a (some clip) =
        (store ++ [runAIPayloadObj (store.getD a []) clip], store.length) ∧
      (store ++ [runAIPayloadObj (store.getD a []) clip]).getD a [] = store.getD a [] ∧
      lookupField (runAIPayloadObj (store.getD a []) clip) "clip" = some clip ∧
      (∀ k, k ≠ "clip" → k ≠ "min_area_fraction" →
        lookupField (runAIPayloadObj (store.getD a []) clip) k =
          lookupField (store.getD a []) k) ∧
      (∃ m, lookupField (runAIPayloadObj (store.getD a []) clip) "min_area_fraction" =
          some m ∧
        (m = Json.num 0 ∨ lookupField (store.getD a []) "min_area_fraction" = some m))) := by
  constructor
  · intro store a c hc
    simp [runAIPayload, hc]
  · intro store a clip hc ha
    refine ⟨?_, ?_, ?_, ?_, ?_⟩
    · simp [runAIPayload, hc]
    · exact List.getD_append _ _ _ _ ha
    · unfold runAIPayloadObj
      rw [lookupField_setFieldList_ne _ _ _ _ (by decide),
        lookupField_setFieldList_self]
    · intro k hk1 hk2
      unfold runAIPayloadObj
      rw [lookupField_setFieldList_ne _ _ _ _ hk2,
        lookupField_setFieldList_ne _ _ _ _ hk1]
    · unfold runAIPayloadObj
      rw [lookupField_setFieldList_self,
        lookupField_setFieldList_ne _ _ _ _ (by decide)]
      cases hm : lookupField (store.getD a []) "min_area_fraction" with
      | none => exact ⟨Json.num 0, rfl, Or.inl rfl⟩
      | some v =>
          by_cases hv : v.truthy = true
          · exact ⟨v, by simp [hv], Or.inr rfl⟩
          · exact ⟨Json.num 0, by simp [hv], Or.inl rfl⟩

/-- C10 (witness): the clip clause applied to a concrete one-document
store with a stored clip polygon. -/
theorem C10_witness :
    runAIPayload storeC10 0 (some clipC10) =
      (storeC10 ++ [runAIPayloadObj (storeC10.getD 0 []) clipC10], storeC10.length) ∧
    (storeC10 ++ [runAIPayloadObj (storeC10.getD 0 []) clipC10]).getD 0 [] =
      storeC10.getD 0 [] ∧
    lookupField (runAIPayloadObj (storeC10.getD 0 []) clipC10) "clip" = some clipC10 ∧
    (∀ k, k ≠ "clip" → k ≠ "min_area_fraction" →
      lookupField (runAIPayloadObj (storeC10.getD 0 []) clipC10) k =
        lookupField (storeC10.getD 0 []) k) ∧
    (∃ m, lookupField (runAIPayloadObj (storeC10.getD 0 []) clipC10) "min_area_fraction" =
        some m ∧
      (m = Json.num 0 ∨ lookupField (storeC10.getD 0 []) "min_area_fraction" = some m)) :=
  C10_runAI_payload.2 storeC10 0 clipC10 (by decide) (by decide)
